import Mathlib

/-!
Verification of the mreg-cli client (src/commands.py, src/mreg_cli/permission.py):
a shallow embedding of the command handlers and of the operation-history log
they record into, together with theorems about the recorded operations.

Embedding conventions:
* Command handlers are embedded as pure functions from their resolved inputs to
  the ordered list of observable effects (`Event`) they produce.  Interactive
  argument collection (`input(...)` prompting and positional/flag extraction) is
  CLI glue outside the history core; each handler is embedded from the point
  where its argument values are bound, and the force flag models `"y" in args`.
* Collaborator calls (`host_info_by_name`, `aliases_of_host`, `get_list`,
  validators such as `is_valid_email`, `to_longform`, the config object) are
  parameters of the embedded handler: the handler is quantified over every
  response the collaborator could give.
* `cli_warning` aborts the running handler and reports a message to the user
  (per the error-propagation policy: warnings are non-fatal to the process);
  `assert` failures are fatal and are embedded as a raised `AssertionError`.
* The `history` module itself (`record_get`/`record_post`/`record_patch`/
  `record_delete`/`undo`/`redo`) is not among the source files; its state
  model below is written from the specification of its public contract and is
  marked `Modelled from the spec:` on every such definition.
-/

namespace MregCli

/-- One entry of a JSON ipaddress-record array (`info["ipaddress"]`); the
handlers under verification read only its `ipaddress` field. -/
structure IpRecord where
  ipaddress : String
  deriving DecidableEq

/-- One entry of a JSON cname-record array (`info["cname"]`); the handlers
under verification read only its `cname` field. -/
structure CnameRec where
  cname : String
  deriving DecidableEq

/-- A JSON-ish field value as passed to the history log.  Arrays that the
embedded handlers inspect are typed (`recs`, `cnames`); scalar values are
strings, integers or `None`. -/
inductive Value where
  | str (s : String)
  | int (n : Int)
  | vnone
  | recs (rs : List IpRecord)
  | cnames (cs : List CnameRec)
  deriving DecidableEq

/-- A field-to-value mapping, shaped like the HTTP payloads handed to the
history log (Python dict, represented as an association list). -/
abbrev Data := List (String × Value)

/-- Python truthiness of a `Value` (`None`, `""`, `0` and `[]` are falsy). -/
def pyTruthy : Value → Bool
  | .vnone => false
  | .str s => !(s == "")
  | .int n => !(n == 0)
  | .recs rs => !rs.isEmpty
  | .cnames cs => !cs.isEmpty

/-- Python `v or d` on field values. -/
def pyOr (v d : Value) : Value :=
  if pyTruthy v then v else d

/-! ### The operation-history log, modelled from the spec

The `history` module is consumed by `commands.py` and `permission.py` but its
source is not part of this file set; the definitions in this section are
modelled from the specification of its public contract (data model and the
`record_*`/`undo` operations). -/

/-- HTTP method of a recorded operation. -/
inductive Method where
  | get
  | post
  | patch
  | delete
  deriving DecidableEq

/-- Modelled from the spec: one recorded operation (HistoryEntry) of the
missing `history` module — sequence number, method, target URL, resource
label, before/after data, the fixed `undoable`/`redoable` flags and the
mutable `undone` flag. -/
structure HistoryEntry where
  seq : Nat
  method : Method
  url : String
  resource : String
  old_data : Data
  new_data : Data
  undoable : Bool
  redoable : Bool
  undone : Bool
  deriving DecidableEq

/-- Modelled from the spec: the append-only, in-memory ordered log of the
missing `history` module. -/
structure History where
  log : List HistoryEntry
  deriving DecidableEq

/-- Modelled from the spec: appending one entry to the log, with the next
dense 1-based sequence number assigned at record time. -/
def History.record (h : History) (m : Method) (url resource : String)
    (old new : Data) (undoable redoable : Bool) : History :=
  { log := h.log ++ [{ seq := h.log.length + 1, method := m, url := url,
                       resource := resource, old_data := old, new_data := new,
                       undoable := undoable, redoable := redoable, undone := false }] }

/-- Modelled from the spec: `record_get(url)` of the missing `history` module —
records a read-only operation, always appended with
`undoable=false, redoable=false`. -/
def History.record_get (h : History) (url : String) : History :=
  h.record .get url "" [] [] false false

/-- Modelled from the spec: `record_post(url, resource_name, new_data,
undoable=true, redoable=true)` of the missing `history` module. -/
def History.record_post (h : History) (url resource_name : String) (new_data : Data)
    (undoable : Bool := true) (redoable : Bool := true) : History :=
  h.record .post url resource_name [] new_data undoable redoable

/-- Modelled from the spec: `record_patch(url, new_data, old_data,
undoable=true, redoable=true)` of the missing `history` module. -/
def History.record_patch (h : History) (url : String) (new_data old_data : Data)
    (undoable : Bool := true) (redoable : Bool := true) : History :=
  h.record .patch url "" old_data new_data undoable redoable

/-- Modelled from the spec: `record_delete(url, old_data, undoable=true,
redoable=false)` of the missing `history` module (deletes default to
`redoable=false`). -/
def History.record_delete (h : History) (url : String) (old_data : Data)
    (undoable : Bool := true) (redoable : Bool := false) : History :=
  h.record .delete url "" old_data [] undoable redoable

/-- An HTTP call issued while undoing or redoing an entry. -/
inductive HttpCall where
  | deleteUrl (url : String)
  | patchData (url : String) (d : Data)
  | postData (url : String) (d : Data)
  deriving DecidableEq

/-- Modelled from the spec: the compensating call of an entry — DELETE for a
recorded POST, PATCH carrying `old_data` for a recorded PATCH, POST carrying
`old_data` for a recorded DELETE, always against the entry URL; a GET has no
side effect to undo, hence no compensating call. -/
def compensatingCall (e : HistoryEntry) : Option HttpCall :=
  match e.method with
  | .get => none
  | .post => some (.deleteUrl e.url)
  | .patch => some (.patchData e.url e.old_data)
  | .delete => some (.postData e.url e.old_data)

/-- Outcome of `undo(sequence_number)` as seen by the caller. -/
inductive UndoOutcome where
  | invalidArgument
  | notUndoable
  | success (c : HttpCall)
  | upstreamFailure (c : HttpCall)
  deriving DecidableEq

/-- Lookup of a log entry by sequence number. -/
def History.find (h : History) (n : Int) : Option HistoryEntry :=
  h.log.find? (fun e => (e.seq : Int) == n)

/-- Setting the `undone` flag of the entry with sequence number `n`. -/
def History.markUndone (h : History) (n : Int) (b : Bool) : History :=
  { log := h.log.map (fun e => if (e.seq : Int) == n then { e with undone := b } else e) }

/-- Modelled from the spec: `undo(sequence_number)` of the missing `history`
module — `InvalidArgument` when no entry has that number, `NotUndoable` when
the entry forbids undo or is already undone; otherwise the compensating HTTP
call is issued (`callOk` is whether that call succeeded) and `undone` is
flipped to true only if the call succeeds, the log being left unchanged on an
upstream failure. -/
def History.undo (h : History) (n : Int) (callOk : Bool) : UndoOutcome × History :=
  match h.find n with
  | none => (.invalidArgument, h)
  | some e =>
    if !e.undoable || e.undone then (.notUndoable, h)
    else
      match compensatingCall e with
      | none => (.notUndoable, h)
      | some c =>
        if callOk then (.success c, h.markUndone n true)
        else (.upstreamFailure c, h)

/-! ### Python `int(...)` parsing (for the History command handlers) -/

/-- Whitespace stripped by Python `int(str)` (ASCII fragment). -/
def isPySpace (c : Char) : Bool :=
  c == ' ' || c == '\t' || c == '\n' || c == '\r' || c == '\x0b' || c == '\x0c'

/-- Numeric value of a decimal digit character. -/
def digitVal (c : Char) : Nat :=
  c.toNat - 48

/-- Decimal digits after the first one, allowing single underscores strictly
between digits (Python 3.6 literal syntax). -/
def digitsRest (acc : Nat) : List Char → Option Nat
  | [] => some acc
  | '_' :: c :: cs => if c.isDigit then digitsRest (acc * 10 + digitVal c) cs else none
  | '_' :: [] => none
  | c :: cs => if c.isDigit then digitsRest (acc * 10 + digitVal c) cs else none

/-- A nonempty run of decimal digits (with embedded underscores) and its value. -/
def digitsValue : List Char → Option Nat
  | [] => none
  | c :: cs => if c.isDigit then digitsRest (digitVal c) cs else none

/-- Model of Python `int(s)` for base-10 strings: strip surrounding
whitespace, allow one optional sign, then a nonempty digit run; `none` is a
`ValueError`. -/
def pyInt (s : String) : Option Int :=
  let t := ((s.toList.dropWhile isPySpace).reverse.dropWhile isPySpace).reverse
  match t with
  | '+' :: rest => (digitsValue rest).map (fun n => (n : Int))
  | '-' :: rest => (digitsValue rest).map (fun n => -(n : Int))
  | rest => (digitsValue rest).map (fun n => (n : Int))

/-- The message of the `ValueError` raised by Python `int(s)` (the quoting of
`repr` is simplified to plain surrounding quotes). -/
def intLiteralError (s : String) : String :=
  "invalid literal for int() with base 10: " ++ "\x27" ++ s ++ "\x27"

/-! ### Observable effects of a command handler -/

/-- IP version of a parsed network. -/
inductive IpVer where
  | v4
  | v6
  deriving DecidableEq

/-- A network as returned by `ipaddress.ip_network` (a collaborator): version,
network address as an integer, and prefix length.  Python orders networks of
one version by `(network_address, netmask)`; the netmask integer is strictly
monotone in the prefix length, so the order key is `(addr, prefixlen)`. -/
structure IpNet where
  ver : IpVer
  addr : Nat
  prefixlen : Nat
  deriving DecidableEq

/-- One row of `/permissions/netgroupregex/` as consumed by `network_list`,
with its `range` already parsed into a network. -/
structure PermEntry where
  range : IpNet
  group : String
  regex : String
  deriving DecidableEq

/-- One row of `/permissions/netgroupregex/` as consumed by `network_remove`,
which reads only the `id` field. -/
structure PermRow where
  id : Int
  deriving DecidableEq

/-- One row of `/srvs/` as consumed by `opt_srv_remove`: the fields the
handler reads (`srvid`, `service`, `target`); real rows may carry more. -/
structure SrvRow where
  srvid : Int
  service : String
  target : String
  deriving DecidableEq

/-- The dict of an `/srvs/` row, as passed whole to `record_delete`. -/
def SrvRow.toData (s : SrvRow) : Data :=
  [("srvid", .int s.srvid), ("service", .str s.service), ("target", .str s.target)]

/-- One row of `/cnames/?cname=...` as consumed by `opt_rename`, which reads
only the `id` field. -/
structure CnameRow where
  id : Int
  deriving DecidableEq

/-- A Python exception escaping a handler. -/
inductive PyError where
  | indexError
  | assertionError (msg : String)
  deriving DecidableEq

/-- One observable effect of a command handler, in program order: a
`history.record_*` call (with the flags it resolved to), an HTTP transport
call, a history undo/redo request, console output, or an escaping
exception.  `recordGet3` is the three-argument `history.record_get(url,
resource, data)` call exactly as `network_add` writes it (the argument shape
of `record_post`). -/
inductive Event where
  | recordGet (url : String)
  | recordGet3 (url resource : String) (d : Data)
  | recordPost (url resource : String) (new_data : Data) (undoable redoable : Bool)
  | recordPatch (url : String) (new_data old_data : Data) (undoable redoable : Bool)
  | recordDelete (url : String) (old_data : Data) (undoable redoable : Bool)
  | httpGet (url : String)
  | httpPost (url : String) (d : Data)
  | httpPatch (url : String) (d : Data)
  | httpDelete (url : String)
  | histUndo (n : Int)
  | histRedo (n : Int)
  | warning (msg : String)
  | info (msg : String)
  | printPermHeader
  | printPermRow (p : PermEntry)
  | raised (e : PyError)
  deriving DecidableEq

/-- A `history.record_get(url)` call site, as a trace event. -/
def record_get_ev (url : String) : Event :=
  .recordGet url

/-- A `history.record_post(url, resource_name, new_data, ...)` call site, as a
trace event; defaults as in `History.record_post`. -/
def record_post_ev (url resource_name : String) (new_data : Data)
    (undoable : Bool := true) (redoable : Bool := true) : Event :=
  .recordPost url resource_name new_data undoable redoable

/-- A `history.record_patch(url, new_data, old_data, ...)` call site, as a
trace event; defaults as in `History.record_patch`. -/
def record_patch_ev (url : String) (new_data old_data : Data)
    (undoable : Bool := true) (redoable : Bool := true) : Event :=
  .recordPatch url new_data old_data undoable redoable

/-- A `history.record_delete(url, old_data, ...)` call site, as a trace
event; defaults as in `History.record_delete` (`redoable=false`). -/
def record_delete_ev (url : String) (old_data : Data)
    (undoable : Bool := true) (redoable : Bool := false) : Event :=
  .recordDelete url old_data undoable redoable

/-- The configuration read at module import (`cli_config`), providing the
server address used in every URL. -/
structure Conf where
  server_ip : String
  server_port : String
  deriving DecidableEq

/-- The shared `http://ip:port` URL stem. -/
def Conf.base (conf : Conf) : String :=
  "http://" ++ conf.server_ip ++ ":" ++ conf.server_port

/-- URL `http://ip:port/hosts/{tail}`. -/
def hostsUrl (conf : Conf) (tail : String) : String :=
  conf.base ++ "/hosts/" ++ tail

/-- URL `http://ip:port/ipaddresses/{tail}`. -/
def ipaddressesUrl (conf : Conf) (tail : String) : String :=
  conf.base ++ "/ipaddresses/" ++ tail

/-- URL `http://ip:port/cnames/{tail}`. -/
def cnamesUrl (conf : Conf) (tail : String) : String :=
  conf.base ++ "/cnames/" ++ tail

/-- URL `http://ip:port/srvs/{tail}`. -/
def srvsUrl (conf : Conf) (tail : String) : String :=
  conf.base ++ "/srvs/" ++ tail

/-- The host dict returned by `host_info_by_name` / `host_info_by_name_or_ip`
(a collaborator): the fields the embedded handlers read.  `cname` and
`ipaddress` arrays are typed because handlers inspect them; `hostid`, `ttl`,
`hinfo`, `loc`, `comment` and `txt` are whatever JSON values the server
returned. -/
structure HostInfo where
  name : String
  contact : String
  hostid : Value
  ttl : Value
  hinfo : Value
  loc : Value
  comment : Value
  txt : Value
  cname : List CnameRec
  ipaddress : List IpRecord
  deriving DecidableEq

/-- The host dict as a field mapping, with the `ipaddress` field holding
`ipVal` (`opt_remove` rebinds that field before recording; field order is
display-irrelevant). -/
def HostInfo.toData (i : HostInfo) (ipVal : Value) : Data :=
  [("name", .str i.name), ("ipaddress", ipVal), ("contact", .str i.contact),
   ("hinfo", i.hinfo), ("loc", i.loc), ("comment", i.comment), ("ttl", i.ttl),
   ("txt", i.txt), ("cname", .cnames i.cname), ("hostid", i.hostid)]

/-! ### History command handlers (src/commands.py, class History) -/

/-- History.opt_redo: `try: history.redo(int(args[0])) except ValueError as e:
cli_warning("invalid input: ...")`.  `args[0]` on an empty list raises an
IndexError that the `except ValueError` clause does not catch. -/
def opt_redo (args : List String) : List Event :=
  match args with
  | [] => [.raised .indexError]
  | a :: _ =>
    match pyInt a with
    | some n => [.histRedo n]
    | none => [.warning ("invalid input: " ++ intLiteralError a)]

/-- History.opt_undo: `try: history.undo(int(args[0])) except ValueError as e:
cli_warning("invalid input: ...")`.  `args[0]` on an empty list raises an
IndexError that the `except ValueError` clause does not catch. -/
def opt_undo (args : List String) : List Event :=
  match args with
  | [] => [.raised .indexError]
  | a :: _ =>
    match pyInt a with
    | some n => [.histUndo n]
    | none => [.warning ("invalid input: " ++ intLiteralError a)]

/-! ### Host command handlers (src/commands.py, class Host)

Only handlers that touch the history log are embedded; the pure display
handlers (`opt_info`, `opt_a_show`, ...) record nothing relevant to the
claims under verification. -/

/-- Host.opt_remove, from the point where `info` (host_info_by_name_or_ip) and
`aliases` (aliases_of_host) are bound; `force` models `"y" in args`.  The
first warning message is the source literal `"{} has multiple ipaddresses,
must force"` (the source passes it unformatted). -/
def opt_remove (conf : Conf) (force : Bool) (info : HostInfo)
    (aliases : List String) : List Event :=
  if info.ipaddress.length > 1 && !force then
    [.warning "\x7b\x7d has multiple ipaddresses, must force"]
  else if !aliases.isEmpty && !force then
    [.warning (info.name ++ " has " ++ toString aliases.length ++ " aliases, must force")]
  else
    (aliases.flatMap (fun al =>
      let url := hostsUrl conf al
      [record_delete_ev url [] false, .httpDelete url,
       .info ("deleted alias host " ++ al ++ " when removing " ++ info.name)]))
    ++
    (let ipVal : Value :=
      match info.ipaddress with
      | [] => .recs []
      | r :: _ => .str r.ipaddress
    let url := hostsUrl conf info.name
    [record_delete_ev url (info.toData ipVal), .httpDelete url,
     .info ("removed " ++ info.name)])

/-- The creation tail of Host.opt_add: build the payload, record it with
`record_post(url, resource_name=name, new_data=data)` and POST it. -/
def opt_add_create (conf : Conf) (name ip contact : String) (hinfo : Option Int)
    (comment : String) : List Event :=
  let url := hostsUrl conf ""
  let data : Data :=
    [("name", .str name), ("ipaddress", .str ip), ("contact", .str contact),
     ("hinfo", match hinfo with | some h => .int h | none => .vnone),
     ("comment", if comment == "" then .vnone else .str comment)]
  [record_post_ev url name data, .httpPost url data,
   .info ("created host " ++ name)]

/-- Host.opt_add after the hinfo check: contact sanity check, forced delete of
an existing host, then creation.  `existing` is the `resolve_input_name`
result (`none` on HostNotFoundWarning), `longform` the
`is_longform`/`to_longform` normalisation. -/
def opt_add_checked (conf : Conf) (force : Bool) (name ip contact : String)
    (hinfo : Option Int) (comment : String) (emailOk : Bool)
    (existing : Option String) (longform : String → String) : List Event :=
  if !emailOk then
    [.warning ("invalid mail address (" ++ contact ++ ") when trying to add " ++ name)]
  else
    match existing with
    | some exName =>
      if !force then [.warning ("host " ++ exName ++ " already exists, must force")]
      else
        let durl := hostsUrl conf exName
        [record_delete_ev durl [] false, .httpDelete durl,
         .info ("deleted existing host " ++ exName)]
        ++ opt_add_create conf (longform exName) ip contact hinfo comment
    | none => opt_add_create conf (longform name) ip contact hinfo comment

/-- Host.opt_add, from the point where its values are bound: `hinfo` is the
int-converted hinfo (`none` for the empty string), `ip` the address chosen
from a subnet when one was given, `emailOk` the `is_valid_email` verdict and
`force` models `"y" in args`; the hinfo range check, then `opt_add_checked`. -/
def opt_add (conf : Conf) (force : Bool) (name ip contact : String)
    (hinfo : Option Int) (comment : String) (hi_list_len : Nat) (emailOk : Bool)
    (existing : Option String) (longform : String → String) : List Event :=
  match hinfo with
  | some h =>
    if !(0 < h && h ≤ (hi_list_len : Int)) then
      [.warning ("invalid hinfo (" ++ toString h ++ ") when trying to add " ++ name)]
    else opt_add_checked conf force name ip contact (some h) comment emailOk existing longform
  | none => opt_add_checked conf force name ip contact none comment emailOk existing longform

/-- Host.opt_set_contact, from the point where `name`, `contact` and `info`
(host_info_by_name) are bound; `emailOk` is the `is_valid_email` verdict. -/
def opt_set_contact (conf : Conf) (name contact : String) (emailOk : Bool)
    (info : HostInfo) : List Event :=
  if !emailOk then
    [.warning ("invalid mail address " ++ contact ++ " (target host: " ++ name ++ ")")]
  else
    let old_data : Data := [("contact", .str info.contact)]
    let new_data : Data := [("contact", .str contact)]
    let url := hostsUrl conf info.name
    [record_patch_ev url new_data old_data, .httpPatch url [("contact", .str contact)],
     .info ("Updated contact of " ++ info.name ++ " to " ++ contact)]

/-- Host.opt_set_comment, from the point where `comment` and `info` are
bound. -/
def opt_set_comment (conf : Conf) (comment : String) (info : HostInfo) : List Event :=
  let old_data : Data := [("comment", pyOr info.comment (.str ""))]
  let new_data : Data := [("comment", .str comment)]
  let url := hostsUrl conf info.name
  [record_patch_ev url new_data old_data, .httpPatch url [("comment", .str comment)],
   .info ("updated comment of " ++ info.name)]

/-- The rename tail of Host.opt_rename: normalise the new name, PATCH the host
with `redoable=False, undoable=False` (the PATCH changes the host name, the
resource key in its URL), then fetch the CNAMEs pointing at the old name and
PATCH each with default flags. -/
def opt_rename_patch (conf : Conf) (old_name new_name : String)
    (longform : String → String) (cnames : List CnameRow) : List Event :=
  let nn := longform new_name
  let old_data : Data := [("name", .str old_name)]
  let new_data : Data := [("name", .str nn)]
  let url := hostsUrl conf old_name
  [record_patch_ev url new_data old_data false false,
   .httpPatch url [("name", .str nn)],
   .info ("renamed " ++ old_name ++ " to " ++ nn)]
  ++
  (let gurl := cnamesUrl conf ("?cname=" ++ old_name)
   [record_get_ev gurl, .httpGet gurl]
   ++ cnames.flatMap (fun c =>
     let curl := cnamesUrl conf (toString c.id)
     let old_data : Data := [("cname", .str old_name)]
     let new_data : Data := [("cname", .str nn)]
     [record_patch_ev curl new_data old_data, .httpPatch curl [("cname", .str nn)]]))

/-- Host.opt_rename, from the point where `old_name` is resolved: `existing`
is `host_info_by_name(new_name, follow_cnames=False)` (`none` on
HostNotFoundWarning), `exAliases` the aliases of that existing host, `cnames`
the rows of `/cnames/?cname=old_name` and `force` models `"y" in args`. -/
def opt_rename (conf : Conf) (force : Bool) (old_name new_name : String)
    (existing : Option HostInfo) (exAliases : List String)
    (longform : String → String) (cnames : List CnameRow) : List Event :=
  match existing with
  | some info =>
    if !force then [.warning ("host " ++ info.name ++ " already exists, must force")]
    else
      (exAliases.flatMap (fun al =>
        let url := hostsUrl conf al
        [record_delete_ev url [] false, .httpDelete url,
         .info ("deleted alias host " ++ al ++ " when removing " ++ info.name ++
                " before renaming " ++ old_name)]))
      ++
      (let url := hostsUrl conf info.name
       [record_delete_ev url [] false, .httpDelete url,
        .info ("deleted existing host " ++ new_name)])
      ++ opt_rename_patch conf old_name new_name longform cnames
  | none => opt_rename_patch conf old_name new_name longform cnames

/-- Host.opt_a_add, from the point where `info` and `ip_or_subnet` are bound;
`validIpv4`/`validSubnet` are the validator verdicts (in the subnet branch the
source warns `"subnets not implemented"`, which aborts the handler). -/
def opt_a_add (conf : Conf) (info : HostInfo) (ip_or_subnet : String)
    (validIpv4 validSubnet : Bool) : List Event :=
  if validIpv4 then
    let data : Data := [("hostid", info.hostid), ("ipaddress", .str ip_or_subnet)]
    let url := ipaddressesUrl conf ""
    [record_post_ev url ip_or_subnet data, .httpPost url data,
     .info ("added ip " ++ ip_or_subnet ++ " to " ++ info.name)]
  else if validSubnet then
    [.warning "subnets not implemented"]
  else
    [.warning ("invalid ipv4 nor subnet: " ++ ip_or_subnet ++ " (target host: " ++ info.name ++ ")")]

/-- Host.opt_a_remove, from the point where `name`, `ip` and `info` are
bound; `validIpv4` is the validator verdict. -/
def opt_a_remove (conf : Conf) (ip : String) (validIpv4 : Bool)
    (info : HostInfo) : List Event :=
  if !validIpv4 then
    [.warning ("not a valid ipv4: " ++ ip)]
  else if !(info.ipaddress.any (fun r => r.ipaddress == ip)) then
    [.warning (ip ++ " is not owned by " ++ info.name)]
  else
    let old_data : Data := [("hostid", info.hostid), ("ipaddress", .str ip)]
    let url := ipaddressesUrl conf ip
    [record_delete_ev url old_data, .httpDelete url,
     .info ("removed ip " ++ ip ++ " from " ++ info.name)]

/-- Host.opt_a_change, from the point where its values are bound.  The PATCH
is recorded with `redoable=False, undoable=False` (the resource key, the old
address in the URL, changes); the subnet branch warns
`"subnets not implemented"` and aborts. -/
def opt_a_change (conf : Conf) (name old_ip ip_or_subnet : String)
    (oldValid newValidIpv4 newValidSubnet : Bool) (info : HostInfo) : List Event :=
  if !oldValid then
    [.warning ("invalid ipv4 " ++ old_ip ++ " (target host " ++ name ++ ")")]
  else if !newValidIpv4 && !newValidSubnet then
    [.warning ("invalid ipv4 nor subnet " ++ ip_or_subnet ++ " (target host " ++ name ++ ")")]
  else if !(info.ipaddress.any (fun r => r.ipaddress == old_ip)) then
    [.warning (old_ip ++ " is not owned by " ++ info.name)]
  else if newValidIpv4 then
    let old_data : Data := [("ipaddress", .str old_ip)]
    let new_data : Data := [("ipaddress", .str ip_or_subnet)]
    let url := ipaddressesUrl conf old_ip
    [record_patch_ev url new_data old_data false false,
     .httpPatch url [("ipaddress", .str ip_or_subnet)],
     .info ("updated ip " ++ old_ip ++ " to " ++ ip_or_subnet ++ " for " ++ info.name)]
  else
    [.warning "subnets not implemented"]

/-- Host.opt_aaaa_add, from the point where `info` and `ip` are bound;
`validIpv6` is the validator verdict. -/
def opt_aaaa_add (conf : Conf) (info : HostInfo) (ip : String)
    (validIpv6 : Bool) : List Event :=
  if !validIpv6 then
    [.warning ("not a valid ipv6 " ++ ip ++ " (target host " ++ info.name ++ ")")]
  else
    let data : Data := [("hostid", info.hostid), ("ipaddress", .str ip)]
    let url := ipaddressesUrl conf ""
    [record_post_ev url ip data, .httpPost url data,
     .info ("added ip " ++ ip ++ " to " ++ info.name)]

/-- Host.opt_aaaa_remove, from the point where `info` and `ip` are bound. -/
def opt_aaaa_remove (conf : Conf) (ip : String) (validIpv6 : Bool)
    (info : HostInfo) : List Event :=
  if !validIpv6 then
    [.warning ("not a valid ipv6 " ++ ip ++ " (target host " ++ info.name ++ ")")]
  else if !(info.ipaddress.any (fun r => r.ipaddress == ip)) then
    [.warning (ip ++ " is not owned by " ++ info.name)]
  else
    let old_data : Data := [("hostid", info.hostid), ("ipaddress", .str ip)]
    let url := ipaddressesUrl conf ip
    [record_delete_ev url old_data, .httpDelete url,
     .info ("removed " ++ ip ++ " from " ++ info.name)]

/-- Host.opt_aaaa_change, from the point where its values are bound; the
PATCH is recorded with `redoable=False, undoable=False` (the resource key in
the URL changes). -/
def opt_aaaa_change (conf : Conf) (old_ip new_ip : String)
    (oldValid newValid : Bool) (info : HostInfo) : List Event :=
  if !oldValid then
    [.warning ("not a valid ipv6 " ++ old_ip ++ " (target host " ++ info.name ++ ")")]
  else if !newValid then
    [.warning ("not a valid ipv6 " ++ new_ip ++ " (target host " ++ info.name ++ ")")]
  else if !(info.ipaddress.any (fun r => r.ipaddress == old_ip)) then
    [.warning (old_ip ++ " is not owned by " ++ info.name)]
  else
    let old_data : Data := [("ipaddress", .str old_ip)]
    let new_data : Data := [("ipaddress", .str new_ip)]
    let url := ipaddressesUrl conf old_ip
    [record_patch_ev url new_data old_data false false,
     .httpPatch url [("ipaddress", .str new_ip)],
     .info ("changed ip " ++ old_ip ++ " to " ++ new_ip ++ " for " ++ info.name)]

/-- Host.opt_ttl_set, from the point where `ttl` and `info` are bound;
`ttlValid` is the `is_valid_ttl` verdict.  The recorded/patched value is the
given string, or `-1` for `"default"`; `old_data` is `info["ttl"] or -1`. -/
def opt_ttl_set (conf : Conf) (ttl : String) (ttlValid : Bool)
    (info : HostInfo) : List Event :=
  if !ttlValid then
    [.warning ("invalid TTL value: " ++ ttl ++ " (target host " ++ info.name ++ ")")]
  else
    let old_data : Data := [("ttl", pyOr info.ttl (.int (-1)))]
    let new_data : Data := [("ttl", if ttl == "default" then .int (-1) else .str ttl)]
    let url := hostsUrl conf info.name
    [record_patch_ev url new_data old_data, .httpPatch url new_data,
     .info ("updated TTL for " ++ info.name)]

/-- Host.opt_ttl_remove, from the point where `info` is bound. -/
def opt_ttl_remove (conf : Conf) (info : HostInfo) : List Event :=
  let old_data : Data := [("ttl", info.ttl)]
  let new_data : Data := [("ttl", .int (-1))]
  let url := hostsUrl conf info.name
  [record_patch_ev url new_data old_data, .httpPatch url [("ttl", .int (-1))],
   .info ("removed TTL for " ++ info.name)]

/-- The CNAME-record creation tail of Host.opt_cname_add: the POST payload is
`hostid`/`cname`, but the call is recorded with an empty `new_data` and
`redoable=False, undoable=False`. -/
def opt_cname_add_record (conf : Conf) (host_name : String) (ai_hostid : Value) : List Event :=
  let url := cnamesUrl conf ""
  [record_post_ev url "" [] false false,
   .httpPost url [("hostid", ai_hostid), ("cname", .str host_name)]]

/-- Host.opt_cname_add, from the point where `host_info` and `alias_info`
(the latter `none` on HostNotFoundWarning) are bound; when the alias host
does not exist it is first created with a regular `record_post`, and
`created` is the refetched info of that new host. -/
def opt_cname_add (conf : Conf) (host_info : HostInfo) (al : String)
    (alias_info : Option HostInfo) (created : HostInfo)
    (longform : String → String) : List Event :=
  match alias_info with
  | some ai =>
    if pyTruthy ai.hinfo || pyTruthy ai.loc || !ai.cname.isEmpty ||
        !ai.ipaddress.isEmpty || pyTruthy ai.txt then
      [.warning ("host " ++ ai.name ++ " already exists and has record(s)")]
    else
      opt_cname_add_record conf host_info.name ai.hostid
      ++ [.info ("Added cname alias " ++ ai.name ++ " for " ++ host_info.name)]
  | none =>
    let an := longform al
    let data : Data := [("name", .str an), ("contact", .str host_info.contact)]
    let url := hostsUrl conf ""
    [record_post_ev url an data, .httpPost url data]
    ++ opt_cname_add_record conf host_info.name created.hostid
    ++ [.info ("Added cname alias " ++ created.name ++ " for " ++ host_info.name)]

/-- Host.opt_cname_remove, from the point where `host_name` is resolved and
`alias_info` is bound: checks that the alias points at the host, then deletes
the CNAME host with `record_delete(url, dict(), undoable=False)`. -/
def opt_cname_remove (conf : Conf) (host_name : String)
    (alias_info : HostInfo) : List Event :=
  match alias_info.cname with
  | [] => [.warning (alias_info.name ++ " does not have any CNAME records.")]
  | c :: _ =>
    if !(c.cname == host_name) then
      [.warning (alias_info.name ++ " is not an alias for " ++ host_name)]
    else
      let url := hostsUrl conf alias_info.name
      [record_delete_ev url [] false, .httpDelete url,
       .info ("Removed cname alias " ++ alias_info.name ++ " for " ++ host_name)]

/-- Host.opt_loc_set, from the point where `loc` and `info` are bound;
`locValid` is the `is_valid_loc` verdict. -/
def opt_loc_set (conf : Conf) (loc : String) (locValid : Bool)
    (info : HostInfo) : List Event :=
  if !locValid then
    [.warning ("invalid LOC " ++ loc ++ " (target host " ++ info.name ++ ")")]
  else
    let old_data : Data := [("loc", pyOr info.loc (.str ""))]
    let new_data : Data := [("loc", .str loc)]
    let url := hostsUrl conf info.name
    [record_patch_ev url new_data old_data, .httpPatch url [("loc", .str loc)],
     .info ("updated LOC to " ++ loc ++ " for " ++ info.name)]

/-- Host.opt_loc_remove, from the point where `info` is bound. -/
def opt_loc_remove (conf : Conf) (info : HostInfo) : List Event :=
  let old_data : Data := [("loc", info.loc)]
  let new_data : Data := [("loc", .str "")]
  let url := hostsUrl conf info.name
  [record_patch_ev url new_data old_data, .httpPatch url [("loc", .str "")],
   .info ("removed LOC for " ++ info.name)]

/-- Host.opt_hinfo_set, from the point where `hinfo` is int-converted and
`info` is bound; `hi_list_len` is `len(hinfo_list())`. -/
def opt_hinfo_set (conf : Conf) (hinfo : Int) (hi_list_len : Nat)
    (info : HostInfo) : List Event :=
  if !(0 < hinfo && hinfo ≤ (hi_list_len : Int)) then
    [.warning "invalid hinfo."]
  else
    let old_data : Data := [("hinfo", pyOr info.hinfo (.int (-1)))]
    let new_data : Data := [("hinfo", .int hinfo)]
    let url := hostsUrl conf info.name
    [record_patch_ev url new_data old_data, .httpPatch url [("hinfo", .int hinfo)],
     .info ("updated hinfo to " ++ toString hinfo ++ " for " ++ info.name)]

/-- Host.opt_hinfo_remove, from the point where `info` is bound. -/
def opt_hinfo_remove (conf : Conf) (info : HostInfo) : List Event :=
  let old_data : Data := [("hinfo", info.hinfo)]
  let new_data : Data := [("hinfo", .int (-1))]
  let url := hostsUrl conf info.name
  [record_patch_ev url new_data old_data, .httpPatch url [("hinfo", .int (-1))],
   .info ("removed hinfo for " ++ info.name)]

/-- Host.opt_srv_add, from the point where its values are bound: `resolved`
is the `resolve_input_name` result for the target (`none` on
HostNotFoundWarning, in which case force is required and the unresolved name
is used), `srvs_exist` whether `/srvs/?service=...` returned entries.  The
creation is recorded with `undoable=False` (`redoable` keeps its default). -/
def opt_srv_add (conf : Conf) (force : Bool) (sname pri weight port name : String)
    (resolved : Option String) (longform : String → String)
    (srvs_exist : Bool) : List Event :=
  if resolved.isNone && !force then
    [.warning "\x7b\x7d does not exist. Must force"]
  else
    let host_name := match resolved with | some hn => hn | none => name
    let sn := longform sname
    let qurl := srvsUrl conf ("?service=" ++ sn)
    let data : Data :=
      [("service", .str sn), ("priority", .str pri), ("weight", .str weight),
       ("port", .str port), ("target", .str host_name)]
    let url := srvsUrl conf ""
    [record_get_ev qurl, .httpGet qurl,
     record_post_ev url "" data false, .httpPost url data,
     .info (if srvs_exist then
              "Added SRV record " ++ sn ++ " with target " ++ host_name ++ " to existing entry."
            else "Added SRV record " ++ sn ++ " with target " ++ host_name)]

/-- Host.opt_srv_remove, from the point where `sname` is bound: `srvs` is
what `/srvs/?service=...` returned and `force` models `"y" in args`.  Each
row is deleted with `record_delete(url, srv, redoable=False)` (`undoable`
keeps its default). -/
def opt_srv_remove (conf : Conf) (force : Bool) (sname : String)
    (longform : String → String) (srvs : List SrvRow) : List Event :=
  let sn := longform sname
  let qurl := srvsUrl conf ("?service=" ++ sn)
  [record_get_ev qurl, .httpGet qurl]
  ++
  (if srvs.length == 0 then
    [.warning ("not service named " ++ sn)]
  else if srvs.length > 1 && !force then
    [.warning ("multiple services named " ++ sn ++ ", must force")]
  else
    srvs.flatMap (fun srv =>
      let url := srvsUrl conf (toString srv.srvid)
      [record_delete_ev url srv.toData true false, .httpDelete url,
       .info ("removed SRV record " ++ srv.service ++ " with target " ++ srv.target)]))

/-! ### Permission command handlers (src/mreg_cli/permission.py) -/

/-- The comparison Python uses inside one IP version when sorting permission
rows by their `range` network: `(network_address, netmask)`, i.e. network
address first, then prefix length. -/
def rangeLe (a b : PermEntry) : Prop :=
  a.range.addr < b.range.addr ∨
    (a.range.addr = b.range.addr ∧ a.range.prefixlen ≤ b.range.prefixlen)

instance : DecidableRel rangeLe := fun a b => by
  unfold rangeLe
  exact inferInstance

instance : IsTotal PermEntry rangeLe := by
  constructor
  intro a b
  unfold rangeLe
  omega

instance : IsTrans PermEntry rangeLe := by
  constructor
  intro a b c
  unfold rangeLe
  omega

/-- `_networksort` of `network_list`: partition the rows into v4 and v6 by
the version of the parsed `range`, sort each part by `range` (Python
`list.sort(key='range')`, modelled by a sort producing an ascending
permutation), and append the v6 rows after the v4 rows (`v4.extend(v6)`). -/
def _networksort (data : List PermEntry) : List PermEntry :=
  let v4 := data.filter (fun i => i.range.ver == IpVer.v4)
  let v6 := data.filter (fun i => i.range.ver == IpVer.v6)
  List.insertionSort rangeLe v4 ++ List.insertionSort rangeLe v6

/-- Address width of a network. -/
def IpNet.bits (n : IpNet) : Nat :=
  match n.ver with
  | .v4 => 32
  | .v6 => 128

/-- `a.supernet_of(b)` of `ipaddress` for same-version networks: `b` lies
within `a` (`a.network_address <= b.network_address` and `b`-broadcast within
`a`-broadcast). -/
def supernet_of (a b : IpNet) : Bool :=
  a.addr ≤ b.addr && b.addr + 2 ^ (b.bits - b.prefixlen) ≤ a.addr + 2 ^ (a.bits - a.prefixlen)

/-- The rows `network_list` keeps after the optional `-range` filter: with an
argument network, only same-version rows whose range it is a supernet of. -/
def network_list_data (argRange : Option IpNet) (permissions : List PermEntry) :
    List PermEntry :=
  match argRange with
  | some argnetwork =>
    permissions.filter (fun i =>
      argnetwork.ver == i.range.ver && supernet_of argnetwork i.range)
  | none => permissions

/-- network_list, from the point where `get_list` returned `permissions` (the
`group` query only changes that response): filter by the optional range
argument, then either report that nothing was found or print the header and
one line per row in `_networksort` order (the row rendering itself is display
glue). -/
def network_list (argRange : Option IpNet) (permissions : List PermEntry) :
    List Event :=
  let data := network_list_data argRange permissions
  if data.isEmpty then
    [.info "No permissions found"]
  else
    .printPermHeader :: (_networksort data).map (fun i => .printPermRow i)

/-- network_add, from the point where its arguments are bound; `rangeValid`
is the `is_valid_network` verdict.  The source records the creation with
`history.record_get(path, "", data)` — the three-argument shape of
`record_post` passed to `record_get` — and never calls `record_post`. -/
def network_add (range group regex : String) (rangeValid : Bool) : List Event :=
  if !rangeValid then
    [.warning ("Invalid range: " ++ range)]
  else
    let data : Data := [("range", .str range), ("group", .str group), ("regex", .str regex)]
    let path := "/permissions/netgroupregex/"
    [.recordGet3 path "" data, .httpPost path data,
     .info ("Added permission to " ++ range)]

/-- network_remove, from the point where `get_list` returned `permissions`
for the (range, group, regex) query: warn and stop on no match, fail the
`assert len(permissions) == 1` on more than one match, and only on exactly
one match record (`record_delete(path, dict(), undoable=False)`) and issue
the DELETE. -/
def network_remove (range group regex : String) (permissions : List PermRow) :
    List Event :=
  match permissions with
  | [] => [.warning "No matching permission found"]
  | p :: rest =>
    if rest.isEmpty then
      let path := "/permissions/netgroupregex/" ++ toString p.id
      [record_delete_ev path [] false, .httpDelete path,
       .info ("Removed permission for " ++ range)]
    else
      [.raised (.assertionError "Should only match one permission")]

/-! ### Predicates over recorded events -/

/-- Whether an event is a `record_post` call. -/
def Event.isRecordPost : Event → Bool
  | .recordPost .. => true
  | _ => false

/-- Whether an event is an HTTP DELETE issued to the transport. -/
def Event.isHttpDelete : Event → Bool
  | .httpDelete _ => true
  | _ => false

/-- Holds of a `record_patch` call whose `old_data` and `new_data` carry the
same keys, in order (which entails equal key sets); trivially true of every
other event. -/
def patchKeysSymmetric : Event → Bool
  | .recordPatch _ new old _ _ => new.map Prod.fst == old.map Prod.fst
  | _ => true

/-- Holds of a `record_patch` call whose flags follow the identifying-key
rule: the identifying key of a host resource is `name` and of an
ipaddress resource `ipaddress` (the value carried in the target URL), and a
patch rewrites the identifying key exactly when its payload binds one of
those keys — then both flags must be false, otherwise both must keep their
defaults (true).  Trivially true of every other event. -/
def patchIdFlagsOk : Event → Bool
  | .recordPatch _ new _ und red =>
    if new.any (fun kv => kv.1 == "name" || kv.1 == "ipaddress") then !und && !red
    else und && red
  | _ => true

/-- Holds of a `record_delete` call that is never both undoable and without a
pre-deletion snapshot: an empty `old_data` forces `undoable=false`, and
equivalently an undoable delete carries a non-empty `old_data`.  Trivially
true of every other event. -/
def deleteSnapshotOk : Event → Bool
  | .recordDelete _ old und _ => !(und && old.isEmpty)
  | _ => true

/-- Conjunction of the three record-call invariants, checked in one pass over
a handler trace and weakened to the individual invariants where needed. -/
def recordCallOk (ev : Event) : Bool :=
  patchKeysSymmetric ev && patchIdFlagsOk ev && deleteSnapshotOk ev

/-- The order in which `network_list` prints two rows: every v4 row strictly
before every v6 row, and inside one version ascending by the network range
key. -/
def displayNetOrder (a b : PermEntry) : Prop :=
  (a.range.ver = IpVer.v4 ∧ b.range.ver = IpVer.v6) ∨
    (a.range.ver = b.range.ver ∧ rangeLe a b)

/-- Holds of an undoable `record_delete` call whose snapshot contains the
flattened ipaddress field `("ipaddress", addr)`; trivially true of every
other event.  Checks the C6 flattening clause on the host delete of
`opt_remove`. -/
def removeSnapshotHasIp (addr : String) : Event → Bool
  | .recordDelete _ old true _ => old.any (fun kv => kv == ("ipaddress", Value.str addr))
  | _ => true

/-- A concrete host dict with one ipaddress record, for evaluating the
handlers. -/
def sampleHostInfo : HostInfo :=
  { name := "h.example.org", contact := "a@b.org", hostid := .int 1,
    ttl := .vnone, hinfo := .vnone, loc := .vnone, comment := .vnone,
    txt := .vnone, cname := [], ipaddress := [{ ipaddress := "10.0.0.1" }] }

/-- A concrete recorded POST entry, for evaluating the history model. -/
def sampleEntry : HistoryEntry :=
  { seq := 1, method := .post, url := "http://s:8000/hosts/", resource := "x",
    old_data := [], new_data := [("name", .str "x")],
    undoable := true, redoable := true, undone := false }

/-- A concrete one-entry log, for evaluating the history model. -/
def sampleHistory : History :=
  { log := [sampleEntry] }

/-! ### Helper lemmas -/

theorem list_all_flatMap {α β : Type} (l : List α) (f : α → List β) (p : β → Bool) :
    ((l.flatMap f).all p) = l.all (fun a => (f a).all p) := by
  induction l with
  | nil => rfl
  | cons a t ih => simp [List.flatMap_cons, List.all_append, ih]

theorem find_markUndone (h : History) (n : Int) (e : HistoryEntry) (b : Bool)
    (hf : h.find n = some e) :
    (h.markUndone n b).find n = some { e with undone := b } := by
  unfold History.find History.markUndone at *
  rw [List.find?_map]
  have hcomp :
      ((fun x : HistoryEntry => ((x.seq : Int) == n)) ∘
        (fun x : HistoryEntry => if ((x.seq : Int) == n) then { x with undone := b } else x)) =
      fun x : HistoryEntry => ((x.seq : Int) == n) := by
    funext x
    by_cases hx : ((x.seq : Int) = n) <;> simp [hx]
  rw [hcomp, hf]
  have hp := List.find?_some hf
  simp only [beq_iff_eq] at hp
  simp [hp]

theorem list_all_weaken {α : Type} {p q : α → Bool} {l : List α}
    (himp : ∀ x, p x = true → q x = true) (hall : l.all p = true) : l.all q = true := by
  simp only [List.all_eq_true] at *
  exact fun x hx => himp x (hall x hx)

theorem recordOk_keys (ev : Event) (h : recordCallOk ev = true) :
    patchKeysSymmetric ev = true := by
  simp only [recordCallOk, Bool.and_eq_true] at h
  exact h.1.1

theorem recordOk_flags (ev : Event) (h : recordCallOk ev = true) :
    patchIdFlagsOk ev = true := by
  simp only [recordCallOk, Bool.and_eq_true] at h
  exact h.1.2

theorem recordOk_delete (ev : Event) (h : recordCallOk ev = true) :
    deleteSnapshotOk ev = true := by
  simp only [recordCallOk, Bool.and_eq_true] at h
  exact h.2

@[simp]
theorem opt_redo_recordOk (args : List String) :
    (opt_redo args).all recordCallOk = true := by
  unfold opt_redo
  repeat' split
  all_goals simp [recordCallOk, patchKeysSymmetric, patchIdFlagsOk, deleteSnapshotOk]

@[simp]
theorem opt_undo_recordOk (args : List String) :
    (opt_undo args).all recordCallOk = true := by
  unfold opt_undo
  repeat' split
  all_goals simp [recordCallOk, patchKeysSymmetric, patchIdFlagsOk, deleteSnapshotOk]

@[simp]
theorem opt_remove_recordOk (conf : Conf) (force : Bool) (info : HostInfo)
    (aliases : List String) :
    (opt_remove conf force info aliases).all recordCallOk = true := by
  unfold opt_remove
  repeat' split
  all_goals simp [recordCallOk, patchKeysSymmetric, patchIdFlagsOk, deleteSnapshotOk,
    record_delete_ev, HostInfo.toData, list_all_flatMap, List.all_append]

@[simp]
theorem opt_add_create_recordOk (conf : Conf) (name ip contact : String)
    (hinfo : Option Int) (comment : String) :
    (opt_add_create conf name ip contact hinfo comment).all recordCallOk = true := by
  unfold opt_add_create
  repeat' split
  all_goals simp [recordCallOk, patchKeysSymmetric, patchIdFlagsOk, deleteSnapshotOk,
    record_post_ev]

@[simp]
theorem opt_add_checked_recordOk (conf : Conf) (force : Bool) (name ip contact : String)
    (hinfo : Option Int) (comment : String) (emailOk : Bool)
    (existing : Option String) (longform : String → String) :
    (opt_add_checked conf force name ip contact hinfo comment emailOk existing
      longform).all recordCallOk = true := by
  unfold opt_add_checked
  repeat' split
  all_goals simp [recordCallOk, patchKeysSymmetric, patchIdFlagsOk, deleteSnapshotOk,
    record_delete_ev, List.all_append, opt_add_create_recordOk]

@[simp]
theorem opt_add_recordOk (conf : Conf) (force : Bool) (name ip contact : String)
    (hinfo : Option Int) (comment : String) (hi_list_len : Nat) (emailOk : Bool)
    (existing : Option String) (longform : String → String) :
    (opt_add conf force name ip contact hinfo comment hi_list_len emailOk existing
      longform).all recordCallOk = true := by
  unfold opt_add
  repeat' split
  all_goals simp [recordCallOk, patchKeysSymmetric, patchIdFlagsOk, deleteSnapshotOk,
    opt_add_checked_recordOk]

@[simp]
theorem opt_set_contact_recordOk (conf : Conf) (name contact : String)
    (emailOk : Bool) (info : HostInfo) :
    (opt_set_contact conf name contact emailOk info).all recordCallOk = true := by
  unfold opt_set_contact
  repeat' split
  all_goals simp [recordCallOk, patchKeysSymmetric, patchIdFlagsOk, deleteSnapshotOk,
    record_patch_ev]

@[simp]
theorem opt_set_comment_recordOk (conf : Conf) (comment : String) (info : HostInfo) :
    (opt_set_comment conf comment info).all recordCallOk = true := by
  unfold opt_set_comment
  all_goals simp [recordCallOk, patchKeysSymmetric, patchIdFlagsOk, deleteSnapshotOk,
    record_patch_ev]

@[simp]
theorem opt_rename_patch_recordOk (conf : Conf) (old_name new_name : String)
    (longform : String → String) (cnames : List CnameRow) :
    (opt_rename_patch conf old_name new_name longform cnames).all recordCallOk = true := by
  unfold opt_rename_patch
  all_goals simp [recordCallOk, patchKeysSymmetric, patchIdFlagsOk, deleteSnapshotOk,
    record_patch_ev, record_get_ev, list_all_flatMap, List.all_append]

@[simp]
theorem opt_rename_recordOk (conf : Conf) (force : Bool) (old_name new_name : String)
    (existing : Option HostInfo) (exAliases : List String)
    (longform : String → String) (cnames : List CnameRow) :
    (opt_rename conf force old_name new_name existing exAliases longform
      cnames).all recordCallOk = true := by
  unfold opt_rename
  repeat' split
  all_goals simp [recordCallOk, patchKeysSymmetric, patchIdFlagsOk, deleteSnapshotOk,
    record_delete_ev, list_all_flatMap, List.all_append, opt_rename_patch_recordOk]

@[simp]
theorem opt_a_add_recordOk (conf : Conf) (info : HostInfo) (ip_or_subnet : String)
    (validIpv4 validSubnet : Bool) :
    (opt_a_add conf info ip_or_subnet validIpv4 validSubnet).all recordCallOk = true := by
  unfold opt_a_add
  repeat' split
  all_goals simp [recordCallOk, patchKeysSymmetric, patchIdFlagsOk, deleteSnapshotOk,
    record_post_ev]

@[simp]
theorem opt_a_remove_recordOk (conf : Conf) (ip : String) (validIpv4 : Bool)
    (info : HostInfo) :
    (opt_a_remove conf ip validIpv4 info).all recordCallOk = true := by
  unfold opt_a_remove
  repeat' split
  all_goals simp [recordCallOk, patchKeysSymmetric, patchIdFlagsOk, deleteSnapshotOk,
    record_delete_ev]

@[simp]
theorem opt_a_change_recordOk (conf : Conf) (name old_ip ip_or_subnet : String)
    (oldValid newValidIpv4 newValidSubnet : Bool) (info : HostInfo) :
    (opt_a_change conf name old_ip ip_or_subnet oldValid newValidIpv4 newValidSubnet
      info).all recordCallOk = true := by
  unfold opt_a_change
  repeat' split
  all_goals simp [recordCallOk, patchKeysSymmetric, patchIdFlagsOk, deleteSnapshotOk,
    record_patch_ev]

@[simp]
theorem opt_aaaa_add_recordOk (conf : Conf) (info : HostInfo) (ip : String)
    (validIpv6 : Bool) :
    (opt_aaaa_add conf info ip validIpv6).all recordCallOk = true := by
  unfold opt_aaaa_add
  repeat' split
  all_goals simp [recordCallOk, patchKeysSymmetric, patchIdFlagsOk, deleteSnapshotOk,
    record_post_ev]

@[simp]
theorem opt_aaaa_remove_recordOk (conf : Conf) (ip : String) (validIpv6 : Bool)
    (info : HostInfo) :
    (opt_aaaa_remove conf ip validIpv6 info).all recordCallOk = true := by
  unfold opt_aaaa_remove
  repeat' split
  all_goals simp [recordCallOk, patchKeysSymmetric, patchIdFlagsOk, deleteSnapshotOk,
    record_delete_ev]

@[simp]
theorem opt_aaaa_change_recordOk (conf : Conf) (old_ip new_ip : String)
    (oldValid newValid : Bool) (info : HostInfo) :
    (opt_aaaa_change conf old_ip new_ip oldValid newValid info).all recordCallOk = true := by
  unfold opt_aaaa_change
  repeat' split
  all_goals simp [recordCallOk, patchKeysSymmetric, patchIdFlagsOk, deleteSnapshotOk,
    record_patch_ev]

@[simp]
theorem opt_ttl_set_recordOk (conf : Conf) (ttl : String) (ttlValid : Bool)
    (info : HostInfo) :
    (opt_ttl_set conf ttl ttlValid info).all recordCallOk = true := by
  unfold opt_ttl_set
  repeat' split
  all_goals simp [recordCallOk, patchKeysSymmetric, patchIdFlagsOk, deleteSnapshotOk,
    record_patch_ev]

@[simp]
theorem opt_ttl_remove_recordOk (conf : Conf) (info : HostInfo) :
    (opt_ttl_remove conf info).all recordCallOk = true := by
  unfold opt_ttl_remove
  all_goals simp [recordCallOk, patchKeysSymmetric, patchIdFlagsOk, deleteSnapshotOk,
    record_patch_ev]

@[simp]
theorem opt_cname_add_record_recordOk (conf : Conf) (host_name : String)
    (ai_hostid : Value) :
    (opt_cname_add_record conf host_name ai_hostid).all recordCallOk = true := by
  unfold opt_cname_add_record
  all_goals simp [recordCallOk, patchKeysSymmetric, patchIdFlagsOk, deleteSnapshotOk,
    record_post_ev]

@[simp]
theorem opt_cname_add_recordOk (conf : Conf) (host_info : HostInfo) (al : String)
    (alias_info : Option HostInfo) (created : HostInfo)
    (longform : String → String) :
    (opt_cname_add conf host_info al alias_info created longform).all recordCallOk = true := by
  unfold opt_cname_add
  repeat' split
  all_goals simp [recordCallOk, patchKeysSymmetric, patchIdFlagsOk, deleteSnapshotOk,
    record_post_ev, List.all_append, opt_cname_add_record_recordOk]

@[simp]
theorem opt_cname_remove_recordOk (conf : Conf) (host_name : String)
    (alias_info : HostInfo) :
    (opt_cname_remove conf host_name alias_info).all recordCallOk = true := by
  unfold opt_cname_remove
  repeat' split
  all_goals simp [recordCallOk, patchKeysSymmetric, patchIdFlagsOk, deleteSnapshotOk,
    record_delete_ev]

@[simp]
theorem opt_loc_set_recordOk (conf : Conf) (loc : String) (locValid : Bool)
    (info : HostInfo) :
    (opt_loc_set conf loc locValid info).all recordCallOk = true := by
  unfold opt_loc_set
  repeat' split
  all_goals simp [recordCallOk, patchKeysSymmetric, patchIdFlagsOk, deleteSnapshotOk,
    record_patch_ev]

@[simp]
theorem opt_loc_remove_recordOk (conf : Conf) (info : HostInfo) :
    (opt_loc_remove conf info).all recordCallOk = true := by
  unfold opt_loc_remove
  all_goals simp [recordCallOk, patchKeysSymmetric, patchIdFlagsOk, deleteSnapshotOk,
    record_patch_ev]

@[simp]
theorem opt_hinfo_set_recordOk (conf : Conf) (hinfo : Int) (hi_list_len : Nat)
    (info : HostInfo) :
    (opt_hinfo_set conf hinfo hi_list_len info).all recordCallOk = true := by
  unfold opt_hinfo_set
  repeat' split
  all_goals simp [recordCallOk, patchKeysSymmetric, patchIdFlagsOk, deleteSnapshotOk,
    record_patch_ev]

@[simp]
theorem opt_hinfo_remove_recordOk (conf : Conf) (info : HostInfo) :
    (opt_hinfo_remove conf info).all recordCallOk = true := by
  unfold opt_hinfo_remove
  all_goals simp [recordCallOk, patchKeysSymmetric, patchIdFlagsOk, deleteSnapshotOk,
    record_patch_ev]

@[simp]
theorem opt_srv_add_recordOk (conf : Conf) (force : Bool)
    (sname pri weight port name : String) (resolved : Option String)
    (longform : String → String) (srvs_exist : Bool) :
    (opt_srv_add conf force sname pri weight port name resolved longform
      srvs_exist).all recordCallOk = true := by
  unfold opt_srv_add
  repeat' split
  all_goals simp [recordCallOk, patchKeysSymmetric, patchIdFlagsOk, deleteSnapshotOk,
    record_post_ev, record_get_ev]

@[simp]
theorem opt_srv_remove_recordOk (conf : Conf) (force : Bool) (sname : String)
    (longform : String → String) (srvs : List SrvRow) :
    (opt_srv_remove conf force sname longform srvs).all recordCallOk = true := by
  unfold opt_srv_remove
  repeat' split
  all_goals simp [recordCallOk, patchKeysSymmetric, patchIdFlagsOk, deleteSnapshotOk,
    record_delete_ev, record_get_ev, SrvRow.toData, list_all_flatMap, List.all_append]

@[simp]
theorem network_list_recordOk (argRange : Option IpNet) (permissions : List PermEntry) :
    (network_list argRange permissions).all recordCallOk = true := by
  by_cases hd : (network_list_data argRange permissions).isEmpty
  all_goals simp [network_list, hd, recordCallOk, patchKeysSymmetric, patchIdFlagsOk,
    deleteSnapshotOk, List.all_map, Function.comp]

@[simp]
theorem network_add_recordOk (range group regex : String) (rangeValid : Bool) :
    (network_add range group regex rangeValid).all recordCallOk = true := by
  unfold network_add
  repeat' split
  all_goals simp [recordCallOk, patchKeysSymmetric, patchIdFlagsOk, deleteSnapshotOk]

@[simp]
theorem network_remove_recordOk (range group regex : String)
    (permissions : List PermRow) :
    (network_remove range group regex permissions).all recordCallOk = true := by
  unfold network_remove
  repeat' split
  all_goals simp [recordCallOk, patchKeysSymmetric, patchIdFlagsOk, deleteSnapshotOk,
    record_delete_ev]

/-! ### Claims -/

/-- C1: for a successful undo of a recorded entry, the compensating call is
determined by the recorded method (DELETE for a POST, PATCH with `old_data`
for a PATCH, POST with `old_data` for a DELETE), always against the entry
URL; `undone` becomes true exactly when the compensating call succeeds, and
on an upstream failure the log (hence the `undone` flag) is unchanged. -/
theorem c1_undo_compensating_call (h : History) (n : Int) (callOk : Bool)
    (e : HistoryEntry) (hf : h.find n = some e) (hget : e.method ≠ Method.get)
    (hu : e.undoable = true) (hd : e.undone = false) :
    ∃ c : HttpCall,
      compensatingCall e = some c ∧
      c = (match e.method with
           | Method.post => HttpCall.deleteUrl e.url
           | Method.patch => HttpCall.patchData e.url e.old_data
           | Method.delete => HttpCall.postData e.url e.old_data
           | Method.get => HttpCall.deleteUrl e.url) ∧
      h.undo n callOk =
        (if callOk then (UndoOutcome.success c, h.markUndone n true)
         else (UndoOutcome.upstreamFailure c, h)) ∧
      (callOk = true → (h.undo n callOk).2.find n = some { e with undone := true }) ∧
      (callOk = false → (h.undo n callOk).2 = h) := by
  cases hmm : e.method with
  | get => exact absurd hmm hget
  | post =>
    refine ⟨HttpCall.deleteUrl e.url, by simp [compensatingCall, hmm], by simp [hmm],
      ?_, ?_, ?_⟩
    · cases callOk <;> simp [History.undo, hf, hu, hd, compensatingCall, hmm]
    · intro hc
      subst hc
      have h2 : (h.undo n true).2 = h.markUndone n true := by
        simp [History.undo, hf, hu, hd, compensatingCall, hmm]
      rw [h2, ← hmm]
      exact find_markUndone h n e true hf
    · intro hc
      subst hc
      simp [History.undo, hf, hu, hd, compensatingCall, hmm]
  | patch =>
    refine ⟨HttpCall.patchData e.url e.old_data, by simp [compensatingCall, hmm],
      by simp [hmm], ?_, ?_, ?_⟩
    · cases callOk <;> simp [History.undo, hf, hu, hd, compensatingCall, hmm]
    · intro hc
      subst hc
      have h2 : (h.undo n true).2 = h.markUndone n true := by
        simp [History.undo, hf, hu, hd, compensatingCall, hmm]
      rw [h2, ← hmm]
      exact find_markUndone h n e true hf
    · intro hc
      subst hc
      simp [History.undo, hf, hu, hd, compensatingCall, hmm]
  | delete =>
    refine ⟨HttpCall.postData e.url e.old_data, by simp [compensatingCall, hmm],
      by simp [hmm], ?_, ?_, ?_⟩
    · cases callOk <;> simp [History.undo, hf, hu, hd, compensatingCall, hmm]
    · intro hc
      subst hc
      have h2 : (h.undo n true).2 = h.markUndone n true := by
        simp [History.undo, hf, hu, hd, compensatingCall, hmm]
      rw [h2, ← hmm]
      exact find_markUndone h n e true hf
    · intro hc
      subst hc
      simp [History.undo, hf, hu, hd, compensatingCall, hmm]

theorem c1_undo_compensating_call_witness :
    ∃ c : HttpCall,
      compensatingCall sampleEntry = some c ∧
      c = (match sampleEntry.method with
           | Method.post => HttpCall.deleteUrl sampleEntry.url
           | Method.patch => HttpCall.patchData sampleEntry.url sampleEntry.old_data
           | Method.delete => HttpCall.postData sampleEntry.url sampleEntry.old_data
           | Method.get => HttpCall.deleteUrl sampleEntry.url) ∧
      sampleHistory.undo 1 true =
        (if true then (UndoOutcome.success c, sampleHistory.markUndone 1 true)
         else (UndoOutcome.upstreamFailure c, sampleHistory)) ∧
      (true = true →
        (sampleHistory.undo 1 true).2.find 1 = some { sampleEntry with undone := true }) ∧
      (true = false → (sampleHistory.undo 1 true).2 = sampleHistory) :=
  c1_undo_compensating_call sampleHistory 1 true sampleEntry (by decide) (by decide)
    (by decide) (by decide)

/-- C10: invoking History.opt_undo or History.opt_redo with an empty argument
list raises an uncaught IndexError from reading `args[0]` — the trace is only
that exception, with no history lookup, warning or HTTP call before it. -/
theorem c10_empty_args_index_error :
    opt_undo [] = [Event.raised PyError.indexError] ∧
    opt_redo [] = [Event.raised PyError.indexError] :=
  ⟨rfl, rfl⟩

/-- C7: when the first argument does not parse as an integer, History.opt_undo
and History.opt_redo catch the ValueError from `int(args[0])` and report it as
the warning `"invalid input: ..."`; nothing else happens (no exception escapes
the handler, no history call is made). -/
theorem c7_undo_redo_bad_int_warns (a : String) (rest : List String)
    (h : pyInt a = none) :
    opt_undo (a :: rest) = [Event.warning ("invalid input: " ++ intLiteralError a)] ∧
    opt_redo (a :: rest) = [Event.warning ("invalid input: " ++ intLiteralError a)] := by
  constructor <;> simp [opt_undo, opt_redo, h]

theorem c7_undo_redo_bad_int_warns_witness :
    opt_undo ["x2"] = [Event.warning ("invalid input: " ++ intLiteralError "x2")] ∧
    opt_redo ["x2"] = [Event.warning ("invalid input: " ++ intLiteralError "x2")] :=
  c7_undo_redo_bad_int_warns "x2" [] (by decide)

/-- C5: `record_delete` defaults to `redoable=false` (with `undoable=true`),
while `record_post` and `record_patch` default both flags to true, so a delete
recorded without an explicit `redoable` argument appends a non-redoable
entry. -/
theorem c5_record_delete_default_not_redoable (h : History)
    (url resource : String) (old new : Data) :
    (h.record_delete url old).log =
      h.log ++ [{ seq := h.log.length + 1, method := Method.delete, url := url,
                  resource := "", old_data := old, new_data := [],
                  undoable := true, redoable := false, undone := false }] ∧
    (h.record_post url resource new).log =
      h.log ++ [{ seq := h.log.length + 1, method := Method.post, url := url,
                  resource := resource, old_data := [], new_data := new,
                  undoable := true, redoable := true, undone := false }] ∧
    (h.record_patch url new old).log =
      h.log ++ [{ seq := h.log.length + 1, method := Method.patch, url := url,
                  resource := "", old_data := old, new_data := new,
                  undoable := true, redoable := true, undone := false }] :=
  ⟨rfl, rfl, rfl⟩

/-- C2 fails on the code: `network_add` issues an HTTP POST creation but
records it through `history.record_get(path, "", data)` (the three-argument
shape of `record_post` handed to `record_get`), and no `record_post` call
appears in its trace.  Evaluated here at the concrete input
`network_add 10.0.0.0/24 mygroup .*` with a valid range. -/
theorem c2_network_add_posts_via_record_get :
    network_add "10.0.0.0/24" "mygroup" ".*" true =
      [Event.recordGet3 "/permissions/netgroupregex/" ""
         [("range", Value.str "10.0.0.0/24"), ("group", Value.str "mygroup"),
          ("regex", Value.str ".*")],
       Event.httpPost "/permissions/netgroupregex/"
         [("range", Value.str "10.0.0.0/24"), ("group", Value.str "mygroup"),
          ("regex", Value.str ".*")],
       Event.info "Added permission to 10.0.0.0/24"] ∧
    (network_add "10.0.0.0/24" "mygroup" ".*" true).all
      (fun ev => !ev.isRecordPost) = true := by
  constructor <;> rfl

/-- C9: `network_remove` issues its DELETE exactly when the query matched one
permission; no match yields only a warning, and more than one match fails the
`assert len(permissions) == 1` before any delete or history record. -/
theorem c9_network_remove_exactly_one (range group regex : String)
    (perms : List PermRow) :
    ((network_remove range group regex perms).any Event.isHttpDelete = true ↔
      perms.length = 1) ∧
    (perms = [] →
      network_remove range group regex perms =
        [Event.warning "No matching permission found"]) ∧
    (∀ p rest, perms = p :: rest → rest ≠ [] →
      network_remove range group regex perms =
        [Event.raised (PyError.assertionError "Should only match one permission")]) ∧
    (∀ p, perms = [p] →
      network_remove range group regex perms =
        [Event.recordDelete ("/permissions/netgroupregex/" ++ toString p.id) [] false false,
         Event.httpDelete ("/permissions/netgroupregex/" ++ toString p.id),
         Event.info ("Removed permission for " ++ range)]) := by
  refine ⟨?_, ?_, ?_, ?_⟩
  · match perms with
    | [] => simp [network_remove, Event.isHttpDelete]
    | [p] => simp [network_remove, record_delete_ev, Event.isHttpDelete]
    | p :: q :: rest => simp [network_remove, Event.isHttpDelete]
  · intro hp
    subst hp
    rfl
  · intro p rest hp hr
    subst hp
    match rest, hr with
    | q :: rs, _ => rfl
  · intro p hp
    subst hp
    rfl

theorem c9_network_remove_exactly_one_witness :
    network_remove "10.0.0.0/24" "g" "r" [PermRow.mk 7, PermRow.mk 8] =
      [Event.raised (PyError.assertionError "Should only match one permission")] :=
  (c9_network_remove_exactly_one "10.0.0.0/24" "g" "r"
      [PermRow.mk 7, PermRow.mk 8]).2.2.1 (PermRow.mk 7) [PermRow.mk 8] rfl (by decide)

/-- C3: every `record_patch` call made by any embedded command handler passes
`old_data` and `new_data` with exactly the same key list (hence the same key
set), for every collaborator response and argument value. -/
theorem c3_record_patch_key_sets :
    (∀ args, (opt_redo args).all patchKeysSymmetric = true) ∧
    (∀ args, (opt_undo args).all patchKeysSymmetric = true) ∧
    (∀ conf force info aliases,
      (opt_remove conf force info aliases).all patchKeysSymmetric = true) ∧
    (∀ conf force name ip contact hinfo comment hi_list_len emailOk existing longform,
      (opt_add conf force name ip contact hinfo comment hi_list_len emailOk existing
        longform).all patchKeysSymmetric = true) ∧
    (∀ conf name contact emailOk info,
      (opt_set_contact conf name contact emailOk info).all patchKeysSymmetric = true) ∧
    (∀ conf comment info,
      (opt_set_comment conf comment info).all patchKeysSymmetric = true) ∧
    (∀ conf force old_name new_name existing exAliases longform cnames,
      (opt_rename conf force old_name new_name existing exAliases longform
        cnames).all patchKeysSymmetric = true) ∧
    (∀ conf info ip_or_subnet validIpv4 validSubnet,
      (opt_a_add conf info ip_or_subnet validIpv4 validSubnet).all patchKeysSymmetric = true) ∧
    (∀ conf ip validIpv4 info,
      (opt_a_remove conf ip validIpv4 info).all patchKeysSymmetric = true) ∧
    (∀ conf name old_ip ip_or_subnet oldValid newValidIpv4 newValidSubnet info,
      (opt_a_change conf name old_ip ip_or_subnet oldValid newValidIpv4 newValidSubnet
        info).all patchKeysSymmetric = true) ∧
    (∀ conf info ip validIpv6,
      (opt_aaaa_add conf info ip validIpv6).all patchKeysSymmetric = true) ∧
    (∀ conf ip validIpv6 info,
      (opt_aaaa_remove conf ip validIpv6 info).all patchKeysSymmetric = true) ∧
    (∀ conf old_ip new_ip oldValid newValid info,
      (opt_aaaa_change conf old_ip new_ip oldValid newValid info).all patchKeysSymmetric = true) ∧
    (∀ conf ttl ttlValid info,
      (opt_ttl_set conf ttl ttlValid info).all patchKeysSymmetric = true) ∧
    (∀ conf info, (opt_ttl_remove conf info).all patchKeysSymmetric = true) ∧
    (∀ conf host_info al alias_info created longform,
      (opt_cname_add conf host_info al alias_info created longform).all patchKeysSymmetric = true) ∧
    (∀ conf host_name alias_info,
      (opt_cname_remove conf host_name alias_info).all patchKeysSymmetric = true) ∧
    (∀ conf loc locValid info,
      (opt_loc_set conf loc locValid info).all patchKeysSymmetric = true) ∧
    (∀ conf info, (opt_loc_remove conf info).all patchKeysSymmetric = true) ∧
    (∀ conf hinfo hi_list_len info,
      (opt_hinfo_set conf hinfo hi_list_len info).all patchKeysSymmetric = true) ∧
    (∀ conf info, (opt_hinfo_remove conf info).all patchKeysSymmetric = true) ∧
    (∀ conf force sname pri weight port name resolved longform srvs_exist,
      (opt_srv_add conf force sname pri weight port name resolved longform
        srvs_exist).all patchKeysSymmetric = true) ∧
    (∀ conf force sname longform srvs,
      (opt_srv_remove conf force sname longform srvs).all patchKeysSymmetric = true) ∧
    (∀ argRange permissions,
      (network_list argRange permissions).all patchKeysSymmetric = true) ∧
    (∀ range group regex rangeValid,
      (network_add range group regex rangeValid).all patchKeysSymmetric = true) ∧
    (∀ range group regex permissions,
      (network_remove range group regex permissions).all patchKeysSymmetric = true) := by
  refine ⟨?_, ?_, ?_, ?_, ?_, ?_, ?_, ?_, ?_, ?_, ?_, ?_, ?_, ?_, ?_, ?_, ?_, ?_, ?_,
    ?_, ?_, ?_, ?_, ?_, ?_, ?_⟩ <;>
    (intros; exact list_all_weaken recordOk_keys (by simp))

/-- C4: every `record_patch` call made by any embedded command handler whose
payload rewrites the identifying key of its target resource (the host `name`
or the record `ipaddress` carried in the URL — the main patches of
`opt_rename`, `opt_a_change` and `opt_aaaa_change`) passes
`undoable=False, redoable=False`, and every other `record_patch` call keeps
both default flags (true). -/
theorem c4_record_patch_identity_flags :
    (∀ args, (opt_redo args).all patchIdFlagsOk = true) ∧
    (∀ args, (opt_undo args).all patchIdFlagsOk = true) ∧
    (∀ conf force info aliases,
      (opt_remove conf force info aliases).all patchIdFlagsOk = true) ∧
    (∀ conf force name ip contact hinfo comment hi_list_len emailOk existing longform,
      (opt_add conf force name ip contact hinfo comment hi_list_len emailOk existing
        longform).all patchIdFlagsOk = true) ∧
    (∀ conf name contact emailOk info,
      (opt_set_contact conf name contact emailOk info).all patchIdFlagsOk = true) ∧
    (∀ conf comment info,
      (opt_set_comment conf comment info).all patchIdFlagsOk = true) ∧
    (∀ conf force old_name new_name existing exAliases longform cnames,
      (opt_rename conf force old_name new_name existing exAliases longform
        cnames).all patchIdFlagsOk = true) ∧
    (∀ conf info ip_or_subnet validIpv4 validSubnet,
      (opt_a_add conf info ip_or_subnet validIpv4 validSubnet).all patchIdFlagsOk = true) ∧
    (∀ conf ip validIpv4 info,
      (opt_a_remove conf ip validIpv4 info).all patchIdFlagsOk = true) ∧
    (∀ conf name old_ip ip_or_subnet oldValid newValidIpv4 newValidSubnet info,
      (opt_a_change conf name old_ip ip_or_subnet oldValid newValidIpv4 newValidSubnet
        info).all patchIdFlagsOk = true) ∧
    (∀ conf info ip validIpv6,
      (opt_aaaa_add conf info ip validIpv6).all patchIdFlagsOk = true) ∧
    (∀ conf ip validIpv6 info,
      (opt_aaaa_remove conf ip validIpv6 info).all patchIdFlagsOk = true) ∧
    (∀ conf old_ip new_ip oldValid newValid info,
      (opt_aaaa_change conf old_ip new_ip oldValid newValid info).all patchIdFlagsOk = true) ∧
    (∀ conf ttl ttlValid info,
      (opt_ttl_set conf ttl ttlValid info).all patchIdFlagsOk = true) ∧
    (∀ conf info, (opt_ttl_remove conf info).all patchIdFlagsOk = true) ∧
    (∀ conf host_info al alias_info created longform,
      (opt_cname_add conf host_info al alias_info created longform).all patchIdFlagsOk = true) ∧
    (∀ conf host_name alias_info,
      (opt_cname_remove conf host_name alias_info).all patchIdFlagsOk = true) ∧
    (∀ conf loc locValid info,
      (opt_loc_set conf loc locValid info).all patchIdFlagsOk = true) ∧
    (∀ conf info, (opt_loc_remove conf info).all patchIdFlagsOk = true) ∧
    (∀ conf hinfo hi_list_len info,
      (opt_hinfo_set conf hinfo hi_list_len info).all patchIdFlagsOk = true) ∧
    (∀ conf info, (opt_hinfo_remove conf info).all patchIdFlagsOk = true) ∧
    (∀ conf force sname pri weight port name resolved longform srvs_exist,
      (opt_srv_add conf force sname pri weight port name resolved longform
        srvs_exist).all patchIdFlagsOk = true) ∧
    (∀ conf force sname longform srvs,
      (opt_srv_remove conf force sname longform srvs).all patchIdFlagsOk = true) ∧
    (∀ argRange permissions,
      (network_list argRange permissions).all patchIdFlagsOk = true) ∧
    (∀ range group regex rangeValid,
      (network_add range group regex rangeValid).all patchIdFlagsOk = true) ∧
    (∀ range group regex permissions,
      (network_remove range group regex permissions).all patchIdFlagsOk = true) := by
  refine ⟨?_, ?_, ?_, ?_, ?_, ?_, ?_, ?_, ?_, ?_, ?_, ?_, ?_, ?_, ?_, ?_, ?_, ?_, ?_,
    ?_, ?_, ?_, ?_, ?_, ?_, ?_⟩ <;>
    (intros; exact list_all_weaken recordOk_flags (by simp))


theorem opt_remove_flatten (conf : Conf) (force : Bool) (info : HostInfo)
    (aliases : List String) (r : IpRecord) (rs : List IpRecord)
    (hip : info.ipaddress = r :: rs) :
    (opt_remove conf force info aliases).all (removeSnapshotHasIp r.ipaddress) = true := by
  unfold opt_remove
  rw [hip]
  repeat' split
  all_goals simp_all [removeSnapshotHasIp, record_delete_ev, HostInfo.toData,
    list_all_flatMap, List.all_append]

/-- C6: every `record_delete` call made by any embedded command handler with
an empty `old_data` also passes `undoable=False` (equivalently, every delete
recorded as undoable carries a non-empty pre-deletion snapshot), and in
`opt_remove` the undoable host delete snapshot carries the ipaddress field
flattened to the first record's address string. -/
theorem c6_record_delete_snapshots :
    (∀ args, (opt_redo args).all deleteSnapshotOk = true) ∧
    (∀ args, (opt_undo args).all deleteSnapshotOk = true) ∧
    (∀ conf force info aliases,
      (opt_remove conf force info aliases).all deleteSnapshotOk = true) ∧
    (∀ conf force name ip contact hinfo comment hi_list_len emailOk existing longform,
      (opt_add conf force name ip contact hinfo comment hi_list_len emailOk existing
        longform).all deleteSnapshotOk = true) ∧
    (∀ conf name contact emailOk info,
      (opt_set_contact conf name contact emailOk info).all deleteSnapshotOk = true) ∧
    (∀ conf comment info,
      (opt_set_comment conf comment info).all deleteSnapshotOk = true) ∧
    (∀ conf force old_name new_name existing exAliases longform cnames,
      (opt_rename conf force old_name new_name existing exAliases longform
        cnames).all deleteSnapshotOk = true) ∧
    (∀ conf info ip_or_subnet validIpv4 validSubnet,
      (opt_a_add conf info ip_or_subnet validIpv4 validSubnet).all deleteSnapshotOk = true) ∧
    (∀ conf ip validIpv4 info,
      (opt_a_remove conf ip validIpv4 info).all deleteSnapshotOk = true) ∧
    (∀ conf name old_ip ip_or_subnet oldValid newValidIpv4 newValidSubnet info,
      (opt_a_change conf name old_ip ip_or_subnet oldValid newValidIpv4 newValidSubnet
        info).all deleteSnapshotOk = true) ∧
    (∀ conf info ip validIpv6,
      (opt_aaaa_add conf info ip validIpv6).all deleteSnapshotOk = true) ∧
    (∀ conf ip validIpv6 info,
      (opt_aaaa_remove conf ip validIpv6 info).all deleteSnapshotOk = true) ∧
    (∀ conf old_ip new_ip oldValid newValid info,
      (opt_aaaa_change conf old_ip new_ip oldValid newValid info).all deleteSnapshotOk = true) ∧
    (∀ conf ttl ttlValid info,
      (opt_ttl_set conf ttl ttlValid info).all deleteSnapshotOk = true) ∧
    (∀ conf info, (opt_ttl_remove conf info).all deleteSnapshotOk = true) ∧
    (∀ conf host_info al alias_info created longform,
      (opt_cname_add conf host_info al alias_info created longform).all deleteSnapshotOk = true) ∧
    (∀ conf host_name alias_info,
      (opt_cname_remove conf host_name alias_info).all deleteSnapshotOk = true) ∧
    (∀ conf loc locValid info,
      (opt_loc_set conf loc locValid info).all deleteSnapshotOk = true) ∧
    (∀ conf info, (opt_loc_remove conf info).all deleteSnapshotOk = true) ∧
    (∀ conf hinfo hi_list_len info,
      (opt_hinfo_set conf hinfo hi_list_len info).all deleteSnapshotOk = true) ∧
    (∀ conf info, (opt_hinfo_remove conf info).all deleteSnapshotOk = true) ∧
    (∀ conf force sname pri weight port name resolved longform srvs_exist,
      (opt_srv_add conf force sname pri weight port name resolved longform
        srvs_exist).all deleteSnapshotOk = true) ∧
    (∀ conf force sname longform srvs,
      (opt_srv_remove conf force sname longform srvs).all deleteSnapshotOk = true) ∧
    (∀ argRange permissions,
      (network_list argRange permissions).all deleteSnapshotOk = true) ∧
    (∀ range group regex rangeValid,
      (network_add range group regex rangeValid).all deleteSnapshotOk = true) ∧
    (∀ range group regex permissions,
      (network_remove range group regex permissions).all deleteSnapshotOk = true) ∧
    (∀ conf force info aliases r rs, info.ipaddress = r :: rs →
      (opt_remove conf force info aliases).all
        (removeSnapshotHasIp r.ipaddress) = true) := by
  refine ⟨?_, ?_, ?_, ?_, ?_, ?_, ?_, ?_, ?_, ?_, ?_, ?_, ?_, ?_, ?_, ?_, ?_, ?_, ?_,
    ?_, ?_, ?_, ?_, ?_, ?_, ?_, ?_⟩ <;>
    first
      | (intros; exact list_all_weaken recordOk_delete (by simp))
      | (exact opt_remove_flatten)


theorem c6_record_delete_snapshots_witness :
    (opt_remove (Conf.mk "s" "8000") true sampleHostInfo []).all
      (removeSnapshotHasIp (IpRecord.mk "10.0.0.1").ipaddress) = true := by
  obtain ⟨-, -, -, -, -, -, -, -, -, -, -, -, -, -, -, -, -, -, -, -, -, -, -, -, -, -,
    hflat⟩ := c6_record_delete_snapshots
  exact hflat (Conf.mk "s" "8000") true sampleHostInfo [] (IpRecord.mk "10.0.0.1") [] rfl

theorem networksort_perm (data : List PermEntry) :
    List.Perm (_networksort data) data := by
  unfold _networksort
  have h4 := List.perm_insertionSort rangeLe (data.filter (fun i => i.range.ver == IpVer.v4))
  have h6 := List.perm_insertionSort rangeLe (data.filter (fun i => i.range.ver == IpVer.v6))
  refine (h4.append h6).trans ?_
  have hfc : data.filter (fun i => i.range.ver == IpVer.v6) =
      data.filter (fun i => !(i.range.ver == IpVer.v4)) := by
    apply List.filter_congr
    intro x _
    cases hv : x.range.ver <;> simp [hv]
  rw [hfc]
  exact List.filter_append_perm _ data

theorem networksort_pairwise (data : List PermEntry) :
    List.Pairwise displayNetOrder (_networksort data) := by
  unfold _networksort
  rw [List.pairwise_append]
  refine ⟨?_, ?_, ?_⟩
  · refine List.Pairwise.imp_of_mem ?_
      (List.sorted_insertionSort rangeLe (data.filter (fun i => i.range.ver == IpVer.v4)))
    intro a b ha hb hr
    have ha4 : a.range.ver = IpVer.v4 := by
      have h1 := (List.mem_insertionSort rangeLe).mp ha
      simpa using (List.mem_filter.mp h1).2
    have hb4 : b.range.ver = IpVer.v4 := by
      have h1 := (List.mem_insertionSort rangeLe).mp hb
      simpa using (List.mem_filter.mp h1).2
    exact Or.inr ⟨ha4.trans hb4.symm, hr⟩
  · refine List.Pairwise.imp_of_mem ?_
      (List.sorted_insertionSort rangeLe (data.filter (fun i => i.range.ver == IpVer.v6)))
    intro a b ha hb hr
    have ha6 : a.range.ver = IpVer.v6 := by
      have h1 := (List.mem_insertionSort rangeLe).mp ha
      simpa using (List.mem_filter.mp h1).2
    have hb6 : b.range.ver = IpVer.v6 := by
      have h1 := (List.mem_insertionSort rangeLe).mp hb
      simpa using (List.mem_filter.mp h1).2
    exact Or.inr ⟨ha6.trans hb6.symm, hr⟩
  · intro a ha b hb
    have ha4 : a.range.ver = IpVer.v4 := by
      have h1 := (List.mem_insertionSort rangeLe).mp ha
      simpa using (List.mem_filter.mp h1).2
    have hb6 : b.range.ver = IpVer.v6 := by
      have h1 := (List.mem_insertionSort rangeLe).mp hb
      simpa using (List.mem_filter.mp h1).2
    exact Or.inl ⟨ha4, hb6⟩

/-- C8: the rows `network_list` prints are exactly its (filtered) permission
rows reordered by `_networksort`, which is a permutation of them in which
every IPv4 range comes strictly before every IPv6 range and, within one IP
version, ranges ascend by the `(network_address, prefixlen)` key — whatever
order the server returned. -/
theorem c8_network_list_sorted (argRange : Option IpNet) (permissions : List PermEntry) :
    network_list argRange permissions =
      (if (network_list_data argRange permissions).isEmpty then
        [Event.info "No permissions found"]
      else
        Event.printPermHeader ::
          (_networksort (network_list_data argRange permissions)).map
            (fun i => Event.printPermRow i)) ∧
    List.Perm (_networksort (network_list_data argRange permissions))
      (network_list_data argRange permissions) ∧
    List.Pairwise displayNetOrder (_networksort (network_list_data argRange permissions)) :=
  ⟨rfl, networksort_perm _, networksort_pairwise _⟩

end MregCli
